import Mathlib

/-
Verification development for the ChoreShore home-automation integration.

The definitions below are a shallow embedding of the coordinator module
(custom_components/choreshore/coordinator.py).  Network requests are made
explicit: each HTTP call the Python code performs is represented by a
response value passed as an argument, and the Python control flow over
those responses is translated directly.  Python dictionaries holding task
records are translated to a fixed structure carrying exactly the fields
the coordinator reads and writes.  Machine-level concerns that the Python
code does not rely on (float representation of the completion rate) are
modelled over the rationals.
-/

/-- Calendar date as used by datetime.date: year, month, day. -/
structure PDate where
  year : Nat
  month : Nat
  day : Nat
deriving DecidableEq

/-- Strict comparison of dates, as Python compares datetime.date values:
lexicographic on (year, month, day). -/
def pdateLt (a b : PDate) : Bool :=
  decide (a.year < b.year) ||
    (decide (a.year = b.year) && (decide (a.month < b.month) ||
      (decide (a.month = b.month) && decide (a.day < b.day))))

/-- Leap-year test of the Gregorian calendar, as datetime uses. -/
def isLeap (y : Nat) : Bool :=
  y % 4 == 0 && (y % 100 != 0 || y % 400 == 0)

/-- Number of days in a month, as validated by the datetime.date constructor. -/
def daysInMonth (y m : Nat) : Nat :=
  if m == 2 then (if isLeap y then 29 else 28)
  else if m == 4 || m == 6 || m == 9 || m == 11 then 30
  else 31

/-- Splitting a character list on the dash separator, with the semantics of
str.split("-"): the empty input gives one empty group, and every dash starts
a new group. -/
def splitOnDash : List Char → List (List Char)
  | [] => [[]]
  | c :: rest =>
    let r := splitOnDash rest
    if c = '-' then [] :: r
    else
      match r with
      | [] => [[c]]
      | g :: gs => (c :: g) :: gs

/-- Test that a character list is nonempty and all digits. -/
def allDigits (cs : List Char) : Bool :=
  decide (cs ≠ []) && cs.all Char.isDigit

/-- Numeric value of a digit list, most significant first. -/
def digitsVal (cs : List Char) : Nat :=
  cs.foldl (fun acc c => acc * 10 + (c.toNat - 48)) 0

/-- Model of datetime.strptime(s, "%Y-%m-%d").date(): the year is exactly four
digits, month and day are one or two digits, and the resulting date must be a
valid calendar date (month 1..12, day within the month, year at least 1).
Any failure raises ValueError in Python, modelled here as none. -/
def parseDate (s : String) : Option PDate :=
  match splitOnDash s.toList with
  | [ys, ms, ds] =>
    if allDigits ys ∧ ys.length = 4 ∧ allDigits ms ∧ ms.length ≤ 2 ∧
        allDigits ds ∧ ds.length ≤ 2 then
      let y := digitsVal ys
      let m := digitsVal ms
      let d := digitsVal ds
      if 1 ≤ y ∧ 1 ≤ m ∧ m ≤ 12 ∧ 1 ≤ d ∧ d ≤ daysInMonth y m then
        some { year := y, month := m, day := d }
      else none
    else none
  | _ => none

/-- Dynamic value found in the due_date field of a task-record dictionary.
A missing key is read by task.get with default value the empty string, so a
record without the key is modelled as .str with the empty string; a key that
is present but null is .pynone; JSON normally delivers a string; .date covers
an already-parsed date object and .int a non-string non-date value. -/
inductive PyDue where
  | pynone
  | str (s : String)
  | date (d : PDate)
  | int (n : Int)
deriving DecidableEq

/-- Python truthiness for a due_date value, as tested by the if statement
guarding the overdue check: None, the empty string and the integer zero are
falsy, dates and other strings and integers are truthy. -/
def truthyDue : PyDue → Bool
  | .pynone => false
  | .str s => decide (s ≠ "")
  | .date _ => true
  | .int n => decide (n ≠ 0)

/-- Profile record, as selected by the coordinator (id plus names; further
member fields are carried through untouched and are not modelled). -/
structure Profile where
  id : String
  first_name : String
  last_name : String
deriving DecidableEq

/-- Chore definition record, as selected from the chores resource (: only the
fields the coordinator reads are modelled; the remaining selected columns are
carried through untouched). -/
structure Chore where
  id : String
  name : String
  household_id : String
deriving DecidableEq

/-- Task-instance record: the fields of the chore_instances dictionaries the
coordinator reads, plus the three entity fields it writes during the join
(chores, assigned_user, completed_user), absent before enrichment. -/
structure Instance where
  id : String
  chore_id : Option String
  assigned_to : Option String
  completed_by : Option String
  status : String
  due_date : PyDue
  chores : Option Chore := none
  assigned_user : Option Profile := none
  completed_user : Option Profile := none
deriving DecidableEq

/-- Status test for completed records, mirroring status == "completed". -/
def isCompletedB (t : Instance) : Bool := t.status == "completed"

/-- Status test for pending records, mirroring status == "pending". -/
def isPendingB (t : Instance) : Bool := t.status == "pending"

/-- Status test for skipped records. -/
def isSkippedB (t : Instance) : Bool := t.status == "skipped"

/-- Overdue test performed inside the pending branch of the analytics loop.
A string is parsed with strptime; a parse failure raises ValueError, which the
surrounding except clause catches, so the record is simply not overdue (.ok
false).  A date object is compared directly.  Comparing an integer against a
date raises TypeError, which the except clause does NOT catch, modelled as
.error. -/
def overdueCheck (today : PDate) : PyDue → Except Unit Bool
  | .str s =>
    match parseDate s with
    | some d => .ok (pdateLt d today)
    | none => .ok false
  | .date d => .ok (pdateLt d today)
  | .int _ => .error ()
  | .pynone => .ok false

/-- Contribution of one task record to the (completed, pending, overdue)
counters of _calculate_analytics: the loop body translated record by record.
The status is tested first for "completed", then for "pending"; the overdue
check runs only for pending records with a truthy due_date. -/
def stepTask (today : PDate) (task : Instance) : Except Unit (Nat × Nat × Nat) :=
  if isCompletedB task then .ok (1, 0, 0)
  else if isPendingB task then
    if truthyDue task.due_date then
      match overdueCheck today task.due_date with
      | .error e => .error e
      | .ok b => .ok (0, 1, if b then 1 else 0)
    else .ok (0, 1, 0)
  else .ok (0, 0, 0)

/-- The counting loop of _calculate_analytics over the whole record list.
The Python loop accumulates the three counters left to right and an uncaught
exception aborts the loop; summing the per-record contributions gives the
same counters, and the result is an error exactly when some record raises. -/
def countLoop (today : PDate) : List Instance → Except Unit (Nat × Nat × Nat)
  | [] => .ok (0, 0, 0)
  | t :: ts =>
    match stepTask today t with
    | .error e => .error e
    | .ok x =>
      match countLoop today ts with
      | .error e => .error e
      | .ok y => .ok (x.1 + y.1, x.2.1 + y.2.1, x.2.2 + y.2.2)

/-- Rounding half to even, the behaviour of the Python builtin round on an
exactly-representable value, modelled over the rationals.  The computation
runs on the numerator and (positive) denominator: f is the floor of q, r the
remainder, and 2r is compared against the denominator to decide the
direction, ties going to the even neighbour. -/
def roundHalfEven (q : ℚ) : ℤ :=
  let n := q.num
  let d := (q.den : ℤ)
  let f := Int.fdiv n d
  let r := n - f * d
  if 2 * r < d then f
  else if d < 2 * r then f + 1
  else if f % 2 = 0 then f else f + 1

/-- Model of round(x, 1): round to one decimal place. -/
def round1 (q : ℚ) : ℚ := (roundHalfEven (q * 10) : ℚ) / 10

/-- Analytics dictionary produced by _calculate_analytics. -/
structure Analytics where
  total_tasks : Nat
  completed_tasks : Nat
  overdue_tasks : Nat
  pending_tasks : Nat
  completion_rate : ℚ
deriving DecidableEq

/-- Model of _calculate_analytics.  An empty list short-circuits to the
all-zero dictionary.  Otherwise the counting loop runs; an uncaught TypeError
from the loop propagates (.error), and on success the completion rate is
round(completed / total * 100, 1) guarded by total > 0. -/
def calculate_analytics (instances : List Instance) (today : PDate) :
    Except Unit Analytics :=
  if instances.isEmpty then
    .ok { total_tasks := 0, completed_tasks := 0, overdue_tasks := 0,
          pending_tasks := 0, completion_rate := 0 }
  else
    match countLoop today instances with
    | .error e => .error e
    | .ok x =>
      let total := instances.length
      .ok { total_tasks := total, completed_tasks := x.1, overdue_tasks := x.2.2,
            pending_tasks := x.2.1,
            completion_rate :=
              round1 (if 0 < total then (x.1 : ℚ) / (total : ℚ) * 100 else 0) }

/-- Overdue flag of a single record as counted by the analytics loop: the
record is pending, its due_date is truthy, and the overdue check succeeds
with a positive comparison. -/
def overdueFlagB (today : PDate) (t : Instance) : Bool :=
  isPendingB t && truthyDue t.due_date &&
    (match overdueCheck today t.due_date with
     | .ok b => b
     | .error _ => false)

/-- Effective due date of a record: the date the analytics loop compares
against today, when one exists.  Falsy values and parse failures yield none,
as does a non-string non-date value (whose comparison raises instead). -/
def effectiveDue (t : Instance) : Option PDate :=
  match t.due_date with
  | .pynone => none
  | .str s => if s = "" then none else parseDate s
  | .date d => some d
  | .int _ => none

/-- Configuration held by the coordinator: household_id and user_id read from
the config entry at initialisation. -/
structure Config where
  household_id : String
  user_id : String
deriving DecidableEq

/-- Outcome of one HTTP request as the coordinator observes it: either a
response with a status code and a decoded JSON body, or a raised exception
(connection error, timeout, body decode failure). -/
inductive FetchResp (α : Type) where
  | resp (code : Nat) (body : α)
  | exn
deriving DecidableEq

/-- Dictionary lookup built by a comprehension keyed on id: with duplicate
ids the later entry wins, hence the search from the end of the list. -/
def lookupChore (chores : List Chore) (cid : String) : Option Chore :=
  chores.reverse.find? (fun ch => ch.id == cid)

/-- Dictionary lookup for profiles keyed on id, later entries winning. -/
def lookupProfile (profiles : List Profile) (pid : String) : Option Profile :=
  profiles.reverse.find? (fun p => p.id == pid)

/-- Enrichment of one household instance with user profiles: assigned_user is
attached when assigned_to matches a fetched profile id, completed_user when
completed_by does; an unmatched or absent reference leaves the record as is. -/
def attachUsers (profiles : List Profile) (inst : Instance) : Instance :=
  let inst1 :=
    match inst.assigned_to with
    | none => inst
    | some uid =>
      match lookupProfile profiles uid with
      | none => inst
      | some p => { inst with assigned_user := some p }
  match inst1.completed_by with
  | none => inst1
  | some uid =>
    match lookupProfile profiles uid with
    | none => inst1
    | some p => { inst1 with completed_user := some p }

/-- Identifiers collected by a set comprehension over truthy values, as in
list(set(instance.get(field) for instance in instances if instance.get(field))).
The set is modelled as a deduplicated list; only membership and emptiness of
the result are consumed. -/
def truthyIds (f : Instance → Option String) (l : List Instance) : List String :=
  ((l.filterMap f).filter (fun s => s != "")).dedup

/-- Model of _fetch_chore_instances.  Three requests run in sequence:
chore_instances, chores (household-filtered server side via the query
parameters built from the configuration), and profiles.  A non-200 status on
the first two requests, or an empty instance list, or no truthy chore ids,
returns the empty list.  The household filter keeps exactly the instances
whose chore_id is a key of the chore lookup, attaching the chore; the
profiles request runs only when some retained instance has a truthy
assigned_to, and a non-200 profiles status skips enrichment while keeping the
records.  Any raised exception is caught by the surrounding try and yields
the empty list.  The configuration only shapes the outgoing query strings,
so it does not appear in the data flow. -/
def fetch_chore_instances (cfg : Config) (instResp : FetchResp (List Instance))
    (choresResp : FetchResp (List Chore))
    (profilesResp : FetchResp (List Profile)) : List Instance :=
  match instResp with
  | .exn => []
  | .resp icode instances =>
    if icode ≠ 200 then []
    else if instances.isEmpty then []
    else
      let chore_ids := truthyIds (fun i => i.chore_id) instances
      if chore_ids.isEmpty then []
      else
        match choresResp with
        | .exn => []
        | .resp ccode chores =>
          if ccode ≠ 200 then []
          else
            let household_instances := instances.filterMap (fun inst =>
              match inst.chore_id with
              | none => none
              | some cid =>
                match lookupChore chores cid with
                | none => none
                | some ch => some { inst with chores := some ch })
            if household_instances.isEmpty then household_instances
            else
              let user_ids := truthyIds (fun i => i.assigned_to) household_instances
              if user_ids.isEmpty then household_instances
              else
                match profilesResp with
                | .exn => []
                | .resp pcode profiles =>
                  if pcode ≠ 200 then household_instances
                  else household_instances.map (attachUsers profiles)

/-- Model of _fetch_household_members: the body of a 200 response is returned
as is; any other status or a raised exception yields the empty list. -/
def fetch_household_members (cfg : Config) (resp : FetchResp (List Profile)) :
    List Profile :=
  match resp with
  | .exn => []
  | .resp code data => if code = 200 then data else []

/-- Poll-result bundle assembled by _async_update_data (the wall-clock
last_updated timestamp is not modelled). -/
structure PollData where
  chore_instances : List Instance
  analytics : Analytics
  members : List Profile
deriving DecidableEq

/-- Model of _async_update_data: fetch instances and members, then compute
analytics.  The fetches never raise; an exception escaping the analytics
computation is re-raised as UpdateFailed, modelled as .error. -/
def async_update_data (cfg : Config) (instResp : FetchResp (List Instance))
    (choresResp : FetchResp (List Chore)) (profilesResp : FetchResp (List Profile))
    (membersResp : FetchResp (List Profile)) (today : PDate) :
    Except Unit PollData :=
  let chore_instances := fetch_chore_instances cfg instResp choresResp profilesResp
  let members := fetch_household_members cfg membersResp
  match calculate_analytics chore_instances today with
  | .error e => .error e
  | .ok analytics =>
    .ok { chore_instances := chore_instances, analytics := analytics,
          members := members }

/-- Task list of a poll outcome: the record list on success, nothing on a
failed update. -/
def pollInstances (x : Except Unit PollData) : List Instance :=
  match x with
  | .ok d => d.chore_instances
  | .error _ => []

/-- Outcome of a mutation POST as the coordinator observes it. -/
inductive MutResp where
  | status (code : Nat)
  | exn
deriving DecidableEq

/-- Observable step of a mutation method, in order: a refresh request sent to
the update scheduler, or the boolean value returned to the caller. -/
inductive Event where
  | requestRefresh
  | ret (success : Bool)
deriving DecidableEq

/-- Body posted by complete_task. -/
structure CompletePayload where
  p_instance_id : String
  p_completed_by : String
deriving DecidableEq

/-- Body posted by skip_task. -/
structure SkipPayload where
  p_instance_id : String
  p_skipped_by : String
  p_skip_reason : Option String
deriving DecidableEq

/-- Model of complete_task: the posted payload names the task and the
configured acting user; on a 200 response a refresh is requested and then
True is returned, on any other status or exception False is returned with no
refresh.  The event list records the steps in program order. -/
def complete_task (cfg : Config) (task_id : String) (resp : MutResp) :
    CompletePayload × List Event :=
  ({ p_instance_id := task_id, p_completed_by := cfg.user_id },
   match resp with
   | .status code =>
     if code = 200 then [Event.requestRefresh, Event.ret true]
     else [Event.ret false]
   | .exn => [Event.ret false])

/-- Model of skip_task: identical control flow to complete_task, with the
optional free-text reason carried in the payload. -/
def skip_task (cfg : Config) (task_id : String) (reason : Option String)
    (resp : MutResp) : SkipPayload × List Event :=
  ({ p_instance_id := task_id, p_skipped_by := cfg.user_id,
     p_skip_reason := reason },
   match resp with
   | .status code =>
     if code = 200 then [Event.requestRefresh, Event.ret true]
     else [Event.ret false]
   | .exn => [Event.ret false])

deriving instance DecidableEq for Except

/-- Sample current date used by concrete witnesses. -/
def sampleToday : PDate := { year := 2024, month := 5, day := 10 }

/-- Sample configuration used by concrete witnesses. -/
def cfg0 : Config := { household_id := "h1", user_id := "u1" }

/-- Pending task with a null due date. -/
def taskPendingNone : Instance :=
  { id := "t1", chore_id := none, assigned_to := none, completed_by := none,
    status := "pending", due_date := PyDue.pynone }

/-- Pending task with an unparseable due-date string. -/
def taskBadStr : Instance :=
  { id := "t2", chore_id := none, assigned_to := none, completed_by := none,
    status := "pending", due_date := PyDue.str "garbage" }

/-- Pending task whose due-date value is an integer: truthy, not a string,
not a date. -/
def taskBadInt : Instance :=
  { id := "t3", chore_id := none, assigned_to := none, completed_by := none,
    status := "pending", due_date := PyDue.int 5 }

/-- Pending task due exactly on the sample current date. -/
def taskDueToday : Instance :=
  { id := "t4", chore_id := none, assigned_to := none, completed_by := none,
    status := "pending", due_date := PyDue.str "2024-05-10" }

/-- Sample chore definition with id c1. -/
def choreC1 : Chore := { id := "c1", name := "Dishes", household_id := "h1" }

/-- Sample chore definition with id c2. -/
def choreC2 : Chore := { id := "c2", name := "Vacuum", household_id := "h1" }

/-- Sample profile with id u2. -/
def profU2 : Profile := { id := "u2", first_name := "Ada", last_name := "L" }

/-- Task instance referencing chore c1, assigned to user u2. -/
def instU2 : Instance :=
  { id := "i1", chore_id := some "c1", assigned_to := some "u2",
    completed_by := none, status := "pending", due_date := PyDue.pynone }

/-- Task instance referencing chore c1, with no assignee. -/
def instUnmatched : Instance :=
  { id := "i2", chore_id := some "c1", assigned_to := none,
    completed_by := none, status := "pending", due_date := PyDue.pynone }

/-- Analytics value produced on a single pending record with no computable
due date: one task, one pending, nothing completed or overdue, rate zero. -/
def analytics0 : Analytics :=
  { total_tasks := 1, completed_tasks := 0, overdue_tasks := 0,
    pending_tasks := 1, completion_rate := 0 }

/-- A record with status pending is not counted completed. -/
theorem not_completed_of_pending {t : Instance} (h : isPendingB t = true) :
    isCompletedB t = false := by
  unfold isPendingB at h
  unfold isCompletedB
  have hs : t.status = "pending" := by simpa using h
  simp [hs]

/-- A record with status completed is not counted pending. -/
theorem not_pending_of_completed {t : Instance} (h : isCompletedB t = true) :
    isPendingB t = false := by
  unfold isCompletedB at h
  unfold isPendingB
  have hs : t.status = "completed" := by simpa using h
  simp [hs]

/-- Each record contributes to at most one of the three status counts. -/
theorem status_flags_le_one (t : Instance) :
    (if isCompletedB t then 1 else 0) + (if isPendingB t then 1 else 0) +
      (if isSkippedB t then 1 else 0) ≤ 1 := by
  unfold isCompletedB isPendingB isSkippedB
  by_cases h1 : t.status = "completed" <;> by_cases h2 : t.status = "pending" <;>
    by_cases h3 : t.status = "skipped" <;> simp_all

/-- The three status counts together never exceed the list length. -/
theorem countP_status_le_length (l : List Instance) :
    l.countP isCompletedB + l.countP isPendingB + l.countP isSkippedB ≤
      l.length := by
  induction l with
  | nil => simp
  | cons t ts ih =>
    have h := status_flags_le_one t
    cases hc : isCompletedB t <;> cases hp : isPendingB t <;>
      cases hs : isSkippedB t <;>
      simp only [hc, hp, hs, if_true, if_false] at h ⊢ <;>
      simp only [List.countP_cons, hc, hp, hs, List.length_cons] <;>
      simp <;> omega

/-- A record flagged overdue by the loop has status pending. -/
theorem overdueFlagB_pending {today : PDate} {t : Instance}
    (h : overdueFlagB today t = true) : isPendingB t = true := by
  unfold overdueFlagB at h
  simp only [Bool.and_eq_true] at h
  exact h.1.1

/-- Characterisation of one loop iteration when it does not raise: the three
contributions are exactly the indicator values of the status and overdue
tests. -/
theorem stepTask_ok_char {today : PDate} {t : Instance} {x : Nat × Nat × Nat}
    (h : stepTask today t = .ok x) :
    x = ((if isCompletedB t then 1 else 0), (if isPendingB t then 1 else 0),
         (if overdueFlagB today t then 1 else 0)) := by
  unfold stepTask at h
  by_cases hc : isCompletedB t = true
  · rw [if_pos hc] at h
    cases h
    simp [hc, not_pending_of_completed hc, overdueFlagB]
  · have hc0 : isCompletedB t = false := by simpa using hc
    rw [if_neg hc] at h
    by_cases hp : isPendingB t = true
    · rw [if_pos hp] at h
      by_cases ht : truthyDue t.due_date = true
      · rw [if_pos ht] at h
        cases ho : overdueCheck today t.due_date with
        | error e => rw [ho] at h; cases h
        | ok b =>
          rw [ho] at h
          cases h
          simp [hc0, hp, overdueFlagB, ht, ho]
      · have ht0 : truthyDue t.due_date = false := by simpa using ht
        rw [if_neg ht] at h
        cases h
        simp [hc0, hp, overdueFlagB, ht0]
    · have hp0 : isPendingB t = false := by simpa using hp
      rw [if_neg hp] at h
      cases h
      simp [hc0, hp0, overdueFlagB]

/-- Characterisation of the counting loop when it does not raise: the three
counters are the countP values of the status and overdue predicates. -/
theorem countLoop_ok_char (l : List Instance) (today : PDate) :
    ∀ x, countLoop today l = .ok x →
      x = (l.countP isCompletedB, l.countP isPendingB,
           l.countP (overdueFlagB today)) := by
  induction l with
  | nil =>
    intro x h
    unfold countLoop at h
    cases h
    simp
  | cons t ts ih =>
    intro x h
    unfold countLoop at h
    cases hst : stepTask today t with
    | error e => rw [hst] at h; cases h
    | ok v =>
      rw [hst] at h
      cases hrec : countLoop today ts with
      | error e => rw [hrec] at h; cases h
      | ok y =>
        rw [hrec] at h
        cases h
        have hv := stepTask_ok_char hst
        have hy := ih y hrec
        subst hv
        subst hy
        simp [List.countP_cons, Nat.add_comm]

/-- The overdue check only raises on a non-string non-date value. -/
theorem overdueCheck_ok_of_not_int {today : PDate} {d : PyDue}
    (h : ∀ n : Int, d ≠ PyDue.int n) : ∃ b, overdueCheck today d = .ok b := by
  cases d with
  | pynone => exact ⟨false, rfl⟩
  | str s =>
    cases hp : parseDate s with
    | none => exact ⟨false, by simp [overdueCheck, hp]⟩
    | some dd => exact ⟨pdateLt dd today, by simp [overdueCheck, hp]⟩
  | date dd => exact ⟨pdateLt dd today, rfl⟩
  | int n => exact absurd rfl (h n)

/-- One loop iteration never raises on a record whose due date is not an
integer-like value. -/
theorem stepTask_ok_of_not_int {today : PDate} {t : Instance}
    (h : ∀ n : Int, t.due_date ≠ PyDue.int n) :
    ∃ v, stepTask today t = .ok v := by
  unfold stepTask
  by_cases hc : isCompletedB t = true
  · rw [if_pos hc]; exact ⟨_, rfl⟩
  · rw [if_neg hc]
    by_cases hp : isPendingB t = true
    · rw [if_pos hp]
      by_cases ht : truthyDue t.due_date = true
      · rw [if_pos ht]
        obtain ⟨b, hb⟩ := @overdueCheck_ok_of_not_int today t.due_date h
        rw [hb]
        exact ⟨_, rfl⟩
      · rw [if_neg ht]; exact ⟨_, rfl⟩
    · rw [if_neg hp]; exact ⟨_, rfl⟩

/-- The counting loop never raises when no record carries an integer-like
due date. -/
theorem countLoop_ok_of_not_int (today : PDate) (l : List Instance)
    (h : ∀ t ∈ l, ∀ n : Int, t.due_date ≠ PyDue.int n) :
    ∃ x, countLoop today l = .ok x := by
  induction l with
  | nil => exact ⟨(0, 0, 0), rfl⟩
  | cons t ts ih =>
    obtain ⟨v, hv⟩ := @stepTask_ok_of_not_int today t
      (h t (List.mem_cons_self t ts))
    obtain ⟨y, hy⟩ := ih (fun u hu => h u (List.mem_cons_of_mem t hu))
    refine ⟨(v.1 + y.1, v.2.1 + y.2.1, v.2.2 + y.2.2), ?_⟩
    unfold countLoop
    rw [hv, hy]

/-- Date comparison is irreflexive: a date is not strictly before itself. -/
theorem pdateLt_irrefl (d : PDate) : pdateLt d d = false := by
  simp [pdateLt]

/-- A record flagged overdue has an effective due date strictly before
today. -/
theorem overdueFlagB_effectiveDue {today : PDate} {t : Instance}
    (h : overdueFlagB today t = true) :
    ∃ d, effectiveDue t = some d ∧ pdateLt d today = true := by
  unfold overdueFlagB at h
  simp only [Bool.and_eq_true] at h
  obtain ⟨⟨_, ht⟩, hm⟩ := h
  cases hd : t.due_date with
  | pynone => rw [hd] at ht; simp [truthyDue] at ht
  | int n =>
    rw [hd] at hm
    simp [overdueCheck] at hm
  | date dd =>
    rw [hd] at hm
    simp only [overdueCheck] at hm
    exact ⟨dd, by simp [effectiveDue, hd], hm⟩
  | str s =>
    rw [hd] at ht hm
    have hs : s ≠ "" := by simpa [truthyDue] using ht
    cases hp : parseDate s with
    | none => simp [overdueCheck, hp] at hm
    | some dd =>
      simp only [overdueCheck, hp] at hm
      exact ⟨dd, by simp [effectiveDue, hd, hs, hp], hm⟩

/-- A record whose effective due date equals today is not flagged overdue. -/
theorem not_overdue_of_due_today {today : PDate} {t : Instance}
    (h : effectiveDue t = some today) : overdueFlagB today t = false := by
  by_contra hc
  have hb : overdueFlagB today t = true := by
    cases hcase : overdueFlagB today t with
    | true => rfl
    | false => exact absurd hcase hc
  obtain ⟨d, hd, hlt⟩ := overdueFlagB_effectiveDue hb
  rw [h] at hd
  cases hd
  rw [pdateLt_irrefl] at hlt
  cases hlt

/-- One loop iteration on a pending record with a falsy due date: counted
pending, not overdue, no exception. -/
theorem stepTask_pending_falsy {today : PDate} {t : Instance}
    (hp : isPendingB t = true) (hf : truthyDue t.due_date = false) :
    stepTask today t = .ok (0, 1, 0) := by
  unfold stepTask
  rw [if_neg (by simp [not_completed_of_pending hp]), if_pos hp,
    if_neg (by simp [hf])]

/-- Unfolding equation for the counting loop on a nonempty list. -/
theorem countLoop_cons (today : PDate) (t : Instance) (ts : List Instance) :
    countLoop today (t :: ts) =
      match stepTask today t with
      | .error e => .error e
      | .ok x =>
        match countLoop today ts with
        | .error e => .error e
        | .ok y => .ok (x.1 + y.1, x.2.1 + y.2.1, x.2.2 + y.2.2) := rfl

/-- Inserting a pending record with a falsy due date anywhere in the list
adds one to the pending counter, leaves the completed and overdue counters
unchanged, and introduces no exception. -/
theorem countLoop_insert_pending_falsy (today : PDate) (t : Instance)
    (hp : isPendingB t = true) (hf : truthyDue t.due_date = false) :
    ∀ l1 l2 : List Instance,
      countLoop today (l1 ++ t :: l2) =
        (countLoop today (l1 ++ l2)).map (fun x => (x.1, x.2.1 + 1, x.2.2)) := by
  intro l1
  induction l1 with
  | nil =>
    intro l2
    simp only [List.nil_append]
    rw [countLoop_cons, stepTask_pending_falsy hp hf]
    cases hr : countLoop today l2 with
    | error e => rfl
    | ok y => simp [Except.map, Nat.add_comm]
  | cons a as ih =>
    intro l2
    simp only [List.cons_append]
    rw [countLoop_cons, countLoop_cons]
    cases hsa : stepTask today a with
    | error e => rfl
    | ok v =>
      rw [ih l2]
      cases hr : countLoop today (as ++ l2) with
      | error e => rfl
      | ok y => simp [Except.map, Nat.add_assoc]

/-- Full characterisation of a successful analytics computation: the counts
are the countP values of the corresponding predicates and the completion rate
is the guarded rounded percentage. -/
theorem calc_ok_char {l : List Instance} {today : PDate} {a : Analytics}
    (h : calculate_analytics l today = .ok a) :
    a.total_tasks = l.length ∧ a.completed_tasks = l.countP isCompletedB ∧
    a.pending_tasks = l.countP isPendingB ∧
    a.overdue_tasks = l.countP (overdueFlagB today) ∧
    a.completion_rate = (if 0 < l.length then
        round1 ((l.countP isCompletedB : ℚ) / (l.length : ℚ) * 100) else 0) := by
  unfold calculate_analytics at h
  by_cases he : l.isEmpty = true
  · rw [if_pos he] at h
    cases h
    have hnil : l = [] := List.isEmpty_iff.mp he
    subst hnil
    simp
  · rw [if_neg he] at h
    cases hcl : countLoop today l with
    | error e => rw [hcl] at h; cases h
    | ok x =>
      rw [hcl] at h
      cases h
      have hx := countLoop_ok_char l today x hcl
      subst hx
      have hlen : 0 < l.length := by
        cases l with
        | nil => simp at he
        | cons t ts => simp
      simp [hlen]

/-- Rounding zero gives zero. -/
theorem roundHalfEven_zero : roundHalfEven 0 = 0 := by
  unfold roundHalfEven
  norm_num

/-- Rounding zero to one decimal gives zero. -/
theorem round1_zero : round1 0 = 0 := by
  unfold round1
  norm_num [roundHalfEven_zero]

/-- Concrete evaluation: a singleton list holding one pending record whose
loop step yields (0, 1, 0) produces the analytics value analytics0. -/
theorem calc_single_pending (t : Instance) (today : PDate)
    (hstep : stepTask today t = .ok (0, 1, 0)) :
    calculate_analytics [t] today = .ok analytics0 := by
  have hcl : countLoop today [t] = .ok (0, 1, 0) := by
    rw [countLoop_cons, hstep]
    rfl
  unfold calculate_analytics
  rw [if_neg (by simp), hcl]
  simp [analytics0]
  norm_num [round1_zero]

/-- C2: whenever the analytics calculator returns a result for a task list,
the completed count plus the pending count plus the number of records with
status skipped never exceeds the total count, the overdue count never exceeds
the pending count, and the overdue count equals the count of records that are
simultaneously pending and overdue-flagged, so every record counted overdue
has status pending. -/
theorem C2_counts_consistent (l : List Instance) (today : PDate) (a : Analytics)
    (h : calculate_analytics l today = .ok a) :
    a.completed_tasks + a.pending_tasks + l.countP isSkippedB ≤ a.total_tasks ∧
    a.overdue_tasks ≤ a.pending_tasks ∧
    a.overdue_tasks =
      l.countP (fun t => isPendingB t && overdueFlagB today t) := by
  obtain ⟨htot, hcomp, hpend, hover, _⟩ := calc_ok_char h
  refine ⟨?_, ?_, ?_⟩
  · rw [htot, hcomp, hpend]
    exact countP_status_le_length l
  · rw [hover, hpend]
    exact List.countP_mono_left (fun t _ ht => overdueFlagB_pending ht)
  · rw [hover]
    apply List.countP_congr
    intro t _
    simp only [Bool.and_eq_true]
    constructor
    · intro hh
      exact ⟨overdueFlagB_pending hh, hh⟩
    · intro hh
      exact hh.2

/-- Witness for C2 at a concrete one-record pending list. -/
theorem C2_witness :
    analytics0.completed_tasks + analytics0.pending_tasks +
        [taskPendingNone].countP isSkippedB ≤ analytics0.total_tasks ∧
    analytics0.overdue_tasks ≤ analytics0.pending_tasks ∧
    analytics0.overdue_tasks =
      [taskPendingNone].countP
        (fun t => isPendingB t && overdueFlagB sampleToday t) :=
  C2_counts_consistent [taskPendingNone] sampleToday analytics0
    (calc_single_pending taskPendingNone sampleToday (by decide))

/-- C3: on every nonempty task list accepted by the calculator, the completion
rate equals round(completed / total * 100, 1) over exact rationals and the
total is positive, so the division performed by the guarded branch never has
a zero denominator. -/
theorem C3_completion_rate (l : List Instance) (today : PDate) (a : Analytics)
    (hne : l ≠ []) (h : calculate_analytics l today = .ok a) :
    a.completion_rate =
      round1 ((a.completed_tasks : ℚ) / (a.total_tasks : ℚ) * 100) ∧
    0 < a.total_tasks := by
  obtain ⟨htot, hcomp, _, _, hrate⟩ := calc_ok_char h
  have hlen : 0 < l.length := List.length_pos.mpr hne
  refine ⟨?_, by rw [htot]; exact hlen⟩
  rw [hrate, if_pos hlen, htot, hcomp]

/-- Witness for C3 at a concrete one-record pending list. -/
theorem C3_witness :
    analytics0.completion_rate =
      round1 ((analytics0.completed_tasks : ℚ) /
        (analytics0.total_tasks : ℚ) * 100) ∧
    0 < analytics0.total_tasks :=
  C3_completion_rate [taskPendingNone] sampleToday analytics0
    (List.cons_ne_nil _ _) (calc_single_pending taskPendingNone sampleToday (by decide))

/-- C8: in every accepted analytics result the overdue count is exactly the
count of overdue-flagged records, a record is flagged only when its effective
due date is strictly before today, and a pending record due exactly today is
never flagged overdue. -/
theorem C8_overdue_strict (l : List Instance) (today : PDate) (a : Analytics)
    (h : calculate_analytics l today = .ok a) :
    a.overdue_tasks = l.countP (overdueFlagB today) ∧
    (∀ t : Instance, overdueFlagB today t = true →
      ∃ d, effectiveDue t = some d ∧ pdateLt d today = true) ∧
    (∀ t : Instance, effectiveDue t = some today →
      overdueFlagB today t = false) := by
  obtain ⟨_, _, _, hover, _⟩ := calc_ok_char h
  exact ⟨hover, fun t ht => overdueFlagB_effectiveDue ht,
    fun t ht => not_overdue_of_due_today ht⟩

/-- Witness for C8: a pending record due exactly on the sample date is not
flagged overdue. -/
theorem C8_witness : overdueFlagB sampleToday taskDueToday = false :=
  (C8_overdue_strict [taskDueToday] sampleToday analytics0
      (calc_single_pending taskDueToday sampleToday (by decide))).2.2
    taskDueToday (by decide)

/-- C9: on the empty input list the calculator returns exactly the all-zero
analytics dictionary, with completion rate the rational number zero. -/
theorem C9_empty_list (today : PDate) :
    calculate_analytics [] today =
      .ok { total_tasks := 0, completed_tasks := 0, overdue_tasks := 0,
            pending_tasks := 0, completion_rate := 0 } := rfl

/-- C10: a pending record whose due-date value is null or the empty string
(the value task.get returns when the key is missing) contributes one to the
pending count, nothing to the overdue count, and raises nothing: inserted
anywhere in a list, it turns the loop outcome by exactly one pending. -/
theorem C10_falsy_due (today : PDate) (t : Instance) (l1 l2 : List Instance)
    (hp : isPendingB t = true)
    (hd : t.due_date = PyDue.pynone ∨ t.due_date = PyDue.str "") :
    stepTask today t = .ok (0, 1, 0) ∧
    countLoop today (l1 ++ t :: l2) =
      (countLoop today (l1 ++ l2)).map (fun x => (x.1, x.2.1 + 1, x.2.2)) := by
  have hf : truthyDue t.due_date = false := by
    rcases hd with hd | hd <;> rw [hd] <;> simp [truthyDue]
  exact ⟨stepTask_pending_falsy hp hf,
    countLoop_insert_pending_falsy today t hp hf l1 l2⟩

/-- Witness for C10 at a concrete pending record with a null due date. -/
theorem C10_witness : stepTask sampleToday taskPendingNone = .ok (0, 1, 0) :=
  (C10_falsy_due sampleToday taskPendingNone [] [] (by rfl) (Or.inl rfl)).1

/-- C5 counterexample: a pending record whose due-date value is a truthy
non-string non-date value (the integer five) makes the analytics computation
raise an uncaught TypeError at the date comparison, so the calculator does
not return a result for this input, contradicting the claim that it never
raises for any non-string non-date value. -/
theorem C5_counterexample :
    calculate_analytics [taskBadInt] sampleToday = .error () ∧
    isPendingB taskBadInt = true ∧ taskBadInt.due_date = PyDue.int 5 :=
  ⟨by decide, by decide, rfl⟩

/-- C5 as amended: a pending record whose due-date string fails to parse is
counted pending, excluded from the overdue count and raises nothing, and the
calculator returns a complete result whenever no record carries a truthy
non-string non-date due value; a record with such a value (an integer)
instead aborts the computation with an uncaught TypeError. -/
theorem C5_parse_failures_skipped :
    (∀ (today : PDate) (t : Instance) (s : String), isPendingB t = true →
      t.due_date = PyDue.str s → parseDate s = none →
      stepTask today t = .ok (0, 1, 0)) ∧
    (∀ (l : List Instance) (today : PDate),
      (∀ t ∈ l, ∀ n : Int, t.due_date ≠ PyDue.int n) →
      ∃ a, calculate_analytics l today = .ok a) := by
  constructor
  · intro today t s hp hd hparse
    unfold stepTask
    rw [if_neg (by simp [not_completed_of_pending hp]), if_pos hp]
    by_cases ht : truthyDue t.due_date = true
    · rw [if_pos ht, hd]
      simp [overdueCheck, hparse]
    · rw [if_neg ht]
  · intro l today h
    obtain ⟨x, hx⟩ := countLoop_ok_of_not_int today l h
    unfold calculate_analytics
    by_cases he : l.isEmpty = true
    · rw [if_pos he]
      exact ⟨_, rfl⟩
    · rw [if_neg he, hx]
      exact ⟨_, rfl⟩

/-- Witness for the amended C5 at a concrete unparseable due-date string. -/
theorem C5_witness :
    stepTask sampleToday taskBadStr = .ok (0, 1, 0) ∧
    calculate_analytics [taskBadStr] sampleToday ≠ .error () := by
  constructor
  · exact C5_parse_failures_skipped.1 sampleToday taskBadStr "garbage"
      (by decide) rfl (by decide)
  · obtain ⟨a, ha⟩ := C5_parse_failures_skipped.2 [taskBadStr] sampleToday
      (by
        intro t ht n
        rw [List.mem_singleton] at ht
        subst ht
        simp [taskBadStr])
    rw [ha]
    intro hcon
    cases hcon

/-- C7: a non-200 status or a raised exception on the chore-instances request
yields the empty list from the instances fetch, and likewise for the
household-members fetch; the fetch functions are total, so no exception
reaches the caller of the poll. -/
theorem C7_fetch_failures_empty :
    (∀ (cfg : Config) (code : Nat) (body : List Instance)
        (cr : FetchResp (List Chore)) (pr : FetchResp (List Profile)),
      code ≠ 200 → fetch_chore_instances cfg (.resp code body) cr pr = []) ∧
    (∀ (cfg : Config) (cr : FetchResp (List Chore))
        (pr : FetchResp (List Profile)),
      fetch_chore_instances cfg .exn cr pr = []) ∧
    (∀ (cfg : Config) (code : Nat) (body : List Profile), code ≠ 200 →
      fetch_household_members cfg (.resp code body) = []) ∧
    (∀ cfg : Config, fetch_household_members cfg .exn = []) := by
  refine ⟨?_, ?_, ?_, ?_⟩
  · intro cfg code body cr pr hc
    simp only [fetch_chore_instances]
    rw [if_pos hc]
  · intro cfg cr pr
    rfl
  · intro cfg code body hc
    simp only [fetch_household_members]
    rw [if_neg hc]
  · intro cfg
    rfl

/-- Witness for C7 at status 500 responses. -/
theorem C7_witness :
    fetch_chore_instances cfg0 (.resp 500 [instU2]) (.resp 200 [choreC1])
      (.resp 200 []) = [] ∧
    fetch_household_members cfg0 (.resp 500 [profU2]) = [] :=
  ⟨C7_fetch_failures_empty.1 cfg0 500 [instU2] (.resp 200 [choreC1])
      (.resp 200 []) (by decide),
   C7_fetch_failures_empty.2.2.1 cfg0 500 [profU2] (by decide)⟩

/-- C6: complete_task returns True exactly on a 200 response, in which case
the refresh request precedes the returned True in program order; on any other
status or on an exception it returns False and sends no refresh request, so
the prior poll result is left untouched (the mutation path never writes the
coordinator data).  The same holds for skip_task with its optional reason. -/
theorem C6_mutations (cfg : Config) (task_id : String) (reason : Option String)
    (resp : MutResp) :
    ((complete_task cfg task_id resp).2 =
      if resp = .status 200 then [Event.requestRefresh, Event.ret true]
      else [Event.ret false]) ∧
    ((skip_task cfg task_id reason resp).2 =
      if resp = .status 200 then [Event.requestRefresh, Event.ret true]
      else [Event.ret false]) ∧
    (Event.ret true ∈ (complete_task cfg task_id resp).2 ↔
      resp = .status 200) ∧
    (Event.requestRefresh ∈ (complete_task cfg task_id resp).2 ↔
      resp = .status 200) ∧
    (Event.ret true ∈ (skip_task cfg task_id reason resp).2 ↔
      resp = .status 200) ∧
    (Event.requestRefresh ∈ (skip_task cfg task_id reason resp).2 ↔
      resp = .status 200) := by
  have hc : (complete_task cfg task_id resp).2 =
      if resp = .status 200 then [Event.requestRefresh, Event.ret true]
      else [Event.ret false] := by
    cases resp with
    | exn => simp [complete_task]
    | status code =>
      by_cases h : code = 200
      · subst h
        simp [complete_task]
      · simp [complete_task, h]
  have hs : (skip_task cfg task_id reason resp).2 =
      if resp = .status 200 then [Event.requestRefresh, Event.ret true]
      else [Event.ret false] := by
    cases resp with
    | exn => simp [skip_task]
    | status code =>
      by_cases h : code = 200
      · subst h
        simp [skip_task]
      · simp [skip_task, h]
  refine ⟨hc, hs, ?_, ?_, ?_, ?_⟩ <;>
    (first
      | rw [hc]
      | rw [hs]) <;>
    by_cases h : resp = .status 200 <;>
    simp [h]

/-- Witness for C6 at a concrete 200 response and a concrete 500 response. -/
theorem C6_witness :
    (complete_task cfg0 "t1" (.status 200)).2 =
      [Event.requestRefresh, Event.ret true] ∧
    (skip_task cfg0 "t1" (some "busy") (.status 500)).2 = [Event.ret false] :=
  ⟨by rw [(C6_mutations cfg0 "t1" none (.status 200)).1]; rfl,
   by rw [(C6_mutations cfg0 "t1" (some "busy") (.status 500)).2.1]; rfl⟩

/-- C1 counterexample: one fetched task record references chore id c1 while
the only fetched chore definition has id c2; the normalizer output is the
empty list, so the record is dropped rather than retained without a chore
entity, contradicting the claim. -/
theorem C1_counterexample :
    fetch_chore_instances cfg0 (.resp 200 [instUnmatched]) (.resp 200 [choreC2])
      (.resp 200 []) = [] ∧
    instUnmatched.chore_id = some "c1" ∧ choreC2.id = "c2" :=
  ⟨by decide, rfl, rfl⟩

/-- C1 as amended: a task record whose chore reference matches no fetched
chore definition is dropped from the output (the chore lookup doubles as the
household filter); a retained record whose assigned-to reference matches no
fetched profile is kept with no assigned-user entity attached; and a record
whose chore and profile references both match gets both entities attached. -/
theorem C1_join_attachment :
    (∀ (cfg : Config) (inst : Instance) (cid : String) (cs : List Chore)
        (ps : List Profile),
      inst.chore_id = some cid → (∀ ch ∈ cs, ch.id ≠ cid) →
      fetch_chore_instances cfg (.resp 200 [inst]) (.resp 200 cs)
        (.resp 200 ps) = []) ∧
    (∀ (cfg : Config) (inst : Instance) (cid : String) (ch : Chore)
        (cs : List Chore) (uid : String),
      inst.chore_id = some cid → cid ≠ "" → lookupChore cs cid = some ch →
      inst.assigned_to = some uid → uid ≠ "" → inst.completed_by = none →
      fetch_chore_instances cfg (.resp 200 [inst]) (.resp 200 cs)
        (.resp 200 []) = [{ inst with chores := some ch }]) ∧
    (∀ (cfg : Config) (inst : Instance) (cid : String) (ch : Chore)
        (cs : List Chore) (uid : String) (p : Profile),
      inst.chore_id = some cid → cid ≠ "" → lookupChore cs cid = some ch →
      inst.assigned_to = some uid → uid ≠ "" → p.id = uid →
      inst.completed_by = none →
      fetch_chore_instances cfg (.resp 200 [inst]) (.resp 200 cs)
        (.resp 200 [p]) =
        [{ inst with chores := some ch, assigned_user := some p }]) := by
  refine ⟨?_, ?_, ?_⟩
  · intro cfg inst cid cs ps hcid hnone
    have hlook : lookupChore cs cid = none := by
      unfold lookupChore
      rw [List.find?_eq_none]
      intro ch hch
      simp only [beq_iff_eq]
      exact hnone ch (List.mem_reverse.mp hch)
    by_cases h0 : cid = ""
    · subst h0
      simp [fetch_chore_instances, truthyIds, hcid]
    · simp [fetch_chore_instances, truthyIds, hcid, hlook, h0]
  · intro cfg inst cid ch cs uid hcid h0 hlook hat hu0 hcb
    simp [fetch_chore_instances, truthyIds, hcid, hlook, h0, hat, hu0, hcb,
      attachUsers, lookupProfile]
  · intro cfg inst cid ch cs uid p hcid h0 hlook hat hu0 hpid hcb
    simp [fetch_chore_instances, truthyIds, hcid, hlook, h0, hat, hu0, hcb,
      attachUsers, lookupProfile, hpid]

/-- Witness for the amended C1: the sample record matches chore c1 and
profile u2 and comes out with both entities attached. -/
theorem C1_witness :
    fetch_chore_instances cfg0 (.resp 200 [instU2]) (.resp 200 [choreC1])
      (.resp 200 [profU2]) =
      [{ instU2 with chores := some choreC1, assigned_user := some profU2 }] :=
  C1_join_attachment.2.2 cfg0 instU2 "c1" choreC1 [choreC1] "u2" profU2
    rfl (by decide) (by decide) rfl (by decide) rfl rfl

/-- C4 counterexample: with configured user u1, a poll over responses holding
a task assigned to u2 produces a nonempty task list containing a record not
assigned to u1, so the configured user identifier does not scope the fetched
task list. -/
theorem C4_counterexample :
    (pollInstances (async_update_data cfg0 (.resp 200 [instU2])
        (.resp 200 [choreC1]) (.resp 200 []) (.resp 200 []) sampleToday)).any
      (fun r => r.assigned_to != some "u1") = true ∧
    pollInstances (async_update_data cfg0 (.resp 200 [instU2])
        (.resp 200 [choreC1]) (.resp 200 []) (.resp 200 []) sampleToday) ≠ [] ∧
    cfg0.user_id = "u1" :=
  ⟨by decide, by decide, rfl⟩

/-- C4 as amended: the configured user identifier does not scope the fetched
task list; the poll result is identical under any configured user id (the
household filter comes from the chore lookup, and the user id is only sent as
the acting user in mutation payloads). -/
theorem C4_user_id_does_not_scope (h u v : String)
    (ir : FetchResp (List Instance)) (cr : FetchResp (List Chore))
    (pr : FetchResp (List Profile)) (mr : FetchResp (List Profile))
    (today : PDate) :
    async_update_data { household_id := h, user_id := u } ir cr pr mr today =
      async_update_data { household_id := h, user_id := v } ir cr pr mr today :=
  rfl

/-- Witness for the amended C4 at two concrete user ids. -/
theorem C4_witness :
    async_update_data { household_id := "h1", user_id := "u1" }
        (.resp 200 [instU2]) (.resp 200 [choreC1]) (.resp 200 [])
        (.resp 200 []) sampleToday =
      async_update_data { household_id := "h1", user_id := "zz" }
        (.resp 200 [instU2]) (.resp 200 [choreC1]) (.resp 200 [])
        (.resp 200 []) sampleToday :=
  C4_user_id_does_not_scope "h1" "u1" "zz" (.resp 200 [instU2])
    (.resp 200 [choreC1]) (.resp 200 []) (.resp 200 []) sampleToday
